import Mathlib

/-!
Verification of the identifier-validation, form-validation and hazard-warning
logic of the Fergtable (Baserow fork) web frontend, shallowly embedded from
`web-frontend/modules/database/components/field/FieldForm.vue` and
`web-frontend/modules/database/components/sidebar/table/TableForm.vue`.

Strings are modelled as Lean `String` (a list of characters); JavaScript
string primitives used by the source (`trim`, `slice`, `includes`, the two
regular expressions) are given explicit executable models below.
-/

set_option maxRecDepth 40000

/-- Character class trimmed by the JavaScript `String.prototype.trim`
(restricted to the ASCII whitespace characters; every string appearing in
this development is ASCII). -/
def isJsWhitespace (c : Char) : Bool :=
  c == ' ' || c == '\t' || c == '\n' || c == '\x0d' || c == '\x0b' || c == '\x0c'

/-- Model of the JavaScript `s.trim()`: remove leading and trailing
whitespace. -/
def jsTrim (s : String) : String :=
  String.mk (((s.data.dropWhile isJsWhitespace).reverse.dropWhile isJsWhitespace).reverse)

/-- Model of the JavaScript `s.slice(0)`: the suffix of `s` starting at
index 0, which is the whole string (not the first character). -/
def jsSliceFromZero (s : String) : String := s

/-- Model of the JavaScript `s.slice(-1)`: the last character of `s` as a
one-character string, or the empty string when `s` is empty. -/
def jsSliceLast (s : String) : String :=
  match s.data.reverse with
  | [] => ""
  | c :: _ => String.mk [c]

/-- Membership in the character class `[a-z0-9_]`. -/
def isLowerNumUnderscoreChar (c : Char) : Bool :=
  (decide (97 ≤ c.toNat) && decide (c.toNat ≤ 122)) ||
    (decide (48 ≤ c.toNat) && decide (c.toNat ≤ 57)) ||
    c == '_'

/-- Model of the JavaScript regular expression test for
the pattern caret [a-z0-9_]+ dollar: at least one character, all of them
lowercase letters, digits or underscores. -/
def matchesLowerNumUnderscore (s : String) : Bool :=
  !s.data.isEmpty && s.data.all isLowerNumUnderscoreChar

/-- Model of the JavaScript regular expression test for the pattern of two
consecutive underscores: true iff the string contains the substring made of
two underscore characters. -/
def hasDoubleUnderscore : List Char → Bool
  | [] => false
  | [_] => false
  | c1 :: c2 :: rest => (c1 == '_' && c2 == '_') || hasDoubleUnderscore (c2 :: rest)

/-- The `mustUseValidAPINameCharacters` validator, character-identical in
`TableForm.vue` (line 122) and `FieldForm.vue` (line 235):

`param = param.trim(); return /regex/.test(param) && param.slice(0) !== "_"
&& param.slice(-1) !== "_" && !(/double underscore/.test(param))`.

Note that the source uses `param.slice(0)`, which evaluates to the whole
trimmed string, not to its first character. -/
def mustUseValidAPINameCharacters (p : String) : Bool :=
  let param := jsTrim p
  matchesLowerNumUnderscore param
    && (jsSliceFromZero param != "_")
    && (jsSliceLast param != "_")
    && !(hasDoubleUnderscore param.data)

/-- A sibling field entity as read from the store getter `field/getAll`:
for the validators only `id`, `name` and `api_name` are relevant. Named
`DbField` because `Field` collides with a Mathlib class. -/
structure DbField where
  id : Nat
  name : String
  api_name : String
deriving DecidableEq, Repr

/-- The `mustHaveUniqueFieldName` validator of `FieldForm.vue` (line 221):
exclude the field being edited (when `existingFieldId` is non-null) and fail
iff some remaining sibling has exactly the trimmed candidate as `name`. -/
def mustHaveUniqueFieldName (fields : List DbField) (existingFieldId : Option Nat)
    (param : String) : Bool :=
  let fs : List DbField := match existingFieldId with
    | some i => fields.filter (fun f => f.id != i)
    | none => fields
  !((fs.map (fun f => f.name)).contains (jsTrim param))

/-- The `mustHaveUniqueFieldAPIName` validator of `FieldForm.vue`
(line 228): same as `mustHaveUniqueFieldName` but over `api_name`. -/
def mustHaveUniqueFieldAPIName (fields : List DbField) (existingFieldId : Option Nat)
    (param : String) : Bool :=
  let fs : List DbField := match existingFieldId with
    | some i => fields.filter (fun f => f.id != i)
    | none => fields
  !((fs.map (fun f => f.api_name)).contains (jsTrim param))

/-- The `mustNotClashWithReservedName` validator of `FieldForm.vue`
(line 239). The constant `RESERVED_BASEROW_FIELD_NAMES` is imported from
`utils/constants`, which is not part of the sources; following the spec
(a fixed set of strings supplied at startup) it is modelled here as an
explicit input. -/
def mustNotClashWithReservedName (reserved : List String) (param : String) : Bool :=
  !(reserved.contains (jsTrim param))

/-- Modelled from the spec: `isNonEmpty` - the external vuelidate
`required` validator used by both forms fails when the trimmed string has
zero length. -/
def requiredValidator (s : String) : Bool :=
  !(jsTrim s).data.isEmpty

/-- Modelled from the spec: the shared length-bound constant
`MAX_FIELD_NAME_LENGTH` imported from `utils/constants`, which is not part
of the sources; the spec fixes no numeric value, 255 is used here and no
claim depends on the exact bound. -/
def MAX_FIELD_NAME_LENGTH : Nat := 255

/-- Modelled from the spec: `isWithinLength` - the external vuelidate
`maxLength` validator bound at `MAX_FIELD_NAME_LENGTH` fails when the
trimmed length exceeds the bound. -/
def maxLengthValidator (s : String) : Bool :=
  decide ((jsTrim s).length ≤ MAX_FIELD_NAME_LENGTH)

/-- C1: evaluation of the source `mustUseValidAPINameCharacters` on the
spec scenarios. The claim expects the string consisting of an underscore
followed by the letters i and d to FAIL (leading underscore); the code
accepts it, because `param.slice(0)` yields the whole string and therefore
the leading-underscore conjunct only rejects the one-character string made
of a single underscore. The double-underscore, trailing-underscore and
plain cases behave as claimed. -/
theorem c1_mustUseValidAPINameCharacters_eval :
    mustUseValidAPINameCharacters "_id" = true
      ∧ mustUseValidAPINameCharacters "my__id" = false
      ∧ mustUseValidAPINameCharacters "id_" = false
      ∧ mustUseValidAPINameCharacters "my_id" = true := by
  decide

/-- The failure condition of `mustHaveUniqueFieldName` in edit mode, as an
existential over the sibling list. -/
theorem uniqueFieldName_false_iff (fields : List DbField) (i : Nat) (param : String) :
    mustHaveUniqueFieldName fields (some i) param = false ↔
      ∃ f ∈ fields, f.id ≠ i ∧ f.name = jsTrim param := by
  simp [mustHaveUniqueFieldName, List.elem_iff, List.mem_map, List.mem_filter,
    bne_iff_ne]
  constructor
  · rintro ⟨f, ⟨hf, hne⟩, heq⟩
    exact ⟨f, hf, hne, heq⟩
  · rintro ⟨f, hf, hne, heq⟩
    exact ⟨f, ⟨hf, hne⟩, heq⟩

/-- The failure condition of `mustHaveUniqueFieldAPIName` in edit mode. -/
theorem uniqueFieldAPIName_false_iff (fields : List DbField) (i : Nat) (param : String) :
    mustHaveUniqueFieldAPIName fields (some i) param = false ↔
      ∃ f ∈ fields, f.id ≠ i ∧ f.api_name = jsTrim param := by
  simp [mustHaveUniqueFieldAPIName, List.elem_iff, List.mem_map, List.mem_filter,
    bne_iff_ne]
  constructor
  · rintro ⟨f, ⟨hf, hne⟩, heq⟩
    exact ⟨f, hf, hne, heq⟩
  · rintro ⟨f, hf, hne, heq⟩
    exact ⟨f, ⟨hf, hne⟩, heq⟩

/-- The failure condition of `mustHaveUniqueFieldName` in creation mode
(no field id to exclude). -/
theorem uniqueFieldName_none_false_iff (fields : List DbField) (param : String) :
    mustHaveUniqueFieldName fields none param = false ↔
      ∃ f ∈ fields, f.name = jsTrim param := by
  simp [mustHaveUniqueFieldName, List.elem_iff, List.mem_map]

/-- C6: the uniqueness checks fail exactly on a case-sensitive match of the
trimmed candidate against a sibling value, with the edited entity excluded
by id first; hence editing without changing the value never self-conflicts,
and the capitalised name Status does not collide with an existing
lowercase status. -/
theorem c6_unique_field_checks :
    (∀ (fields : List DbField) (i : Nat) (param : String),
        mustHaveUniqueFieldName fields (some i) param = false ↔
          ∃ f ∈ fields, f.id ≠ i ∧ f.name = jsTrim param)
      ∧ (∀ (fields : List DbField) (i : Nat) (param : String),
          mustHaveUniqueFieldAPIName fields (some i) param = false ↔
            ∃ f ∈ fields, f.id ≠ i ∧ f.api_name = jsTrim param)
      ∧ (∀ (fields : List DbField) (param : String),
          mustHaveUniqueFieldName fields none param = false ↔
            ∃ f ∈ fields, f.name = jsTrim param)
      ∧ (∀ (fields : List DbField) (i : Nat) (param : String),
          (∀ f ∈ fields, f.name = jsTrim param → f.id = i) →
            mustHaveUniqueFieldName fields (some i) param = true)
      ∧ mustHaveUniqueFieldName [DbField.mk 1 "status" "status"] none "Status" = true := by
  refine ⟨uniqueFieldName_false_iff, uniqueFieldAPIName_false_iff,
    uniqueFieldName_none_false_iff, ?_, by decide⟩
  intro fields i param h
  cases hb : mustHaveUniqueFieldName fields (some i) param with
  | true => rfl
  | false =>
    obtain ⟨f, hf, hne, heq⟩ := (uniqueFieldName_false_iff fields i param).mp hb
    exact absurd (h f hf heq) hne

/-- Witness for C6: editing the only field named a, keeping its name,
passes the uniqueness check. -/
theorem c6_unique_field_checks_witness :
    mustHaveUniqueFieldName [DbField.mk 1 "a" "a"] (some 1) "a" = true :=
  c6_unique_field_checks.2.2.2.1 [DbField.mk 1 "a" "a"] 1 "a" (by decide)

/-- The error taxonomy of the spec; each error branch of the templates
surfaces exactly one of these kinds. -/
inductive ErrorKind where
  | RequiredFieldMissing
  | NameTooLong
  | InvalidApiNameFormat
  | DuplicateName
  | DuplicateApiName
  | ReservedNameClash
  | TypeRequired
deriving DecidableEq, Repr

/-- The `values` object of `FieldForm.vue` `data()` (lines 165-181): `name`
and `type` always present, the `api_name` key present (initially empty)
only when not creating; `none` models an absent key. -/
structure FieldValues where
  name : String
  type : String
  api_name : Option String
deriving DecidableEq, Repr

/-- The `allowedValues` list built in `data()` of `FieldForm.vue`:
`name` and `type` always, `api_name` appended only when not creating. -/
def fieldFormAllowedValues (creating : Bool) : List String :=
  let base := ["name", "type"]
  if creating then base else base ++ ["api_name"]

/-- The initial `values` built in `data()` of `FieldForm.vue`: empty name,
type taken from `forcedType` when given, and an `api_name` key only when
not creating. -/
def fieldFormInitialValues (creating : Bool) (forcedType : Option String) : FieldValues :=
  { name := ""
  , type := forcedType.getD ""
  , api_name := if creating then none else some "" }

/-- The keys of the `api_name` entry of the rule map built by
`validations()` of `FieldForm.vue` (lines 196-219): absent while creating,
otherwise the four rules in declaration order. -/
def fieldFormApiNameRuleNames (creating : Bool) : Option (List String) :=
  if creating then none
  else some ["required", "maxLength", "mustHaveUniqueFieldAPIName",
    "mustUseValidAPINameCharacters"]

/-- Failing rule kinds for the `name` field of the field form, in the
declaration order of `validations()`: required, maxLength,
mustHaveUniqueFieldName, mustNotClashWithReservedName. -/
def fieldNameFailing (reserved : List String) (fields : List DbField)
    (existingFieldId : Option Nat) (v : String) : List ErrorKind :=
  (if requiredValidator v then [] else [ErrorKind.RequiredFieldMissing])
    ++ (if maxLengthValidator v then [] else [ErrorKind.NameTooLong])
    ++ (if mustHaveUniqueFieldName fields existingFieldId v then []
        else [ErrorKind.DuplicateName])
    ++ (if mustNotClashWithReservedName reserved v then []
        else [ErrorKind.ReservedNameClash])

/-- Failing rule kinds for the `type` field of the field form: only the
required rule is declared. -/
def fieldTypeFailing (v : String) : List ErrorKind :=
  if requiredValidator v then [] else [ErrorKind.TypeRequired]

/-- Failing rule kinds for the `api_name` field of the field form, in the
declaration order of `validations()`: required, maxLength,
mustHaveUniqueFieldAPIName, mustUseValidAPINameCharacters. -/
def fieldApiNameFailing (fields : List DbField) (existingFieldId : Option Nat)
    (v : String) : List ErrorKind :=
  (if requiredValidator v then [] else [ErrorKind.RequiredFieldMissing])
    ++ (if maxLengthValidator v then [] else [ErrorKind.NameTooLong])
    ++ (if mustHaveUniqueFieldAPIName fields existingFieldId v then []
        else [ErrorKind.DuplicateApiName])
    ++ (if mustUseValidAPINameCharacters v then []
        else [ErrorKind.InvalidApiNameFormat])

/-- The full state a field form validation run can read: the mode, the
values, the sibling fields (store getter), the id of the field being
edited, the reserved-word list, the per-field dirty flags and the hazard
flag. -/
structure FieldFormState where
  creating : Bool
  values : FieldValues
  fields : List DbField
  existingFieldId : Option Nat
  reservedNames : List String
  touchedName : Bool
  touchedType : Bool
  touchedApiName : Bool
  api_name_focused : Bool
deriving DecidableEq, Repr

/-- The per-field failing lists produced by one validation pass; the
`api_name` entry is absent (`none`) exactly when the rule map has no
`api_name` entry. -/
structure FieldFormErrors where
  nameErrors : List ErrorKind
  typeErrors : List ErrorKind
  apiNameErrors : Option (List ErrorKind)
deriving DecidableEq, Repr

/-- One validation pass of the field form: evaluate every declared rule of
`validations()` on the current values. Reads only the mode, the values,
the sibling fields, the edited id and the reserved list - never the dirty
flags or the hazard flag. -/
def fieldFormEvaluate (s : FieldFormState) : FieldFormErrors :=
  { nameErrors := fieldNameFailing s.reservedNames s.fields s.existingFieldId s.values.name
  , typeErrors := fieldTypeFailing s.values.type
  , apiNameErrors :=
      if s.creating then none
      else some (fieldApiNameFailing s.fields s.existingFieldId (s.values.api_name.getD "")) }

/-- The overall validity of the field form (the vuelidate conjunction of
all declared validators): every declared failing list is empty. -/
def fieldFormIsValid (s : FieldFormState) : Bool :=
  (fieldFormEvaluate s).nameErrors.isEmpty
    && (fieldFormEvaluate s).typeErrors.isEmpty
    && (match (fieldFormEvaluate s).apiNameErrors with
        | none => true
        | some l => l.isEmpty)

/-- Marking one field dirty (the `$touch` calls wired to the blur and hide
events): only the corresponding dirty flag changes. -/
def fieldFormTouch (fname : String) (s : FieldFormState) : FieldFormState :=
  if fname = "name" then { s with touchedName := true }
  else if fname = "type" then { s with touchedType := true }
  else if fname = "api_name" then { s with touchedApiName := true }
  else s

/-- The v-model binding of the name input: update `values.name`. -/
def fieldFormSetName (v : String) (s : FieldFormState) : FieldFormState :=
  { s with values := { s.values with name := v } }

/-- The v-model binding of the type dropdown: update `values.type`. The
`api_name` input is rendered only when `creating` is false, so no binding
writes `values.api_name` in creation mode. -/
def fieldFormSetType (v : String) (s : FieldFormState) : FieldFormState :=
  { s with values := { s.values with type := v } }

/-- Modelled from the spec: the form mixin (not part of the sources) emits
on submit the current values object as a shallow copy, so the emitted keys
are exactly the keys present in the values object. -/
def fieldFormEmittedKeys (values : FieldValues) : List String :=
  ["name", "type"] ++ (match values.api_name with | some _ => ["api_name"] | none => [])

/-- C5: while creating a field no api_name rule exists or is evaluated and
the values object (hence the emitted object) has no api_name key; while
editing, the four api_name rules (required, maxLength, uniqueness, format)
are declared. -/
theorem c5_creating_mode_api_name_absent :
    fieldFormApiNameRuleNames true = none
      ∧ fieldFormApiNameRuleNames false =
          some ["required", "maxLength", "mustHaveUniqueFieldAPIName",
            "mustUseValidAPINameCharacters"]
      ∧ ("api_name" ∉ fieldFormAllowedValues true)
      ∧ ("api_name" ∈ fieldFormAllowedValues false)
      ∧ (∀ ft, (fieldFormInitialValues true ft).api_name = none)
      ∧ (∀ s : FieldFormState, s.creating = true → (fieldFormEvaluate s).apiNameErrors = none)
      ∧ (∀ vals : FieldValues, vals.api_name = none → "api_name" ∉ fieldFormEmittedKeys vals)
      ∧ (∀ (s : FieldFormState) (v : String),
          (fieldFormSetName v s).values.api_name = s.values.api_name)
      ∧ (∀ (s : FieldFormState) (v : String),
          (fieldFormSetType v s).values.api_name = s.values.api_name) := by
  refine ⟨rfl, rfl, by decide, by decide, fun ft => rfl, ?_, ?_, fun s v => rfl, fun s v => rfl⟩
  · intro s h
    simp [fieldFormEvaluate, h]
  · intro vals h
    simp [fieldFormEmittedKeys, h]

/-- Witness for C5 at a concrete creating-mode state. -/
theorem c5_creating_mode_api_name_absent_witness :
    (fieldFormEvaluate ⟨true, ⟨"", "", none⟩, [], none, [], false, false, false, false⟩).apiNameErrors = none
      ∧ "api_name" ∉ fieldFormEmittedKeys ⟨"", "", none⟩ :=
  ⟨c5_creating_mode_api_name_absent.2.2.2.2.2.1
      ⟨true, ⟨"", "", none⟩, [], none, [], false, false, false, false⟩ rfl,
    c5_creating_mode_api_name_absent.2.2.2.2.2.2.1 ⟨"", "", none⟩ rfl⟩

/-- Touching any single field leaves the validity verdict unchanged. -/
theorem fieldFormTouch_isValid_eq (fname : String) (s : FieldFormState) :
    fieldFormIsValid (fieldFormTouch fname s) = fieldFormIsValid s := by
  unfold fieldFormTouch
  split
  · rfl
  · split
    · rfl
    · split
      · rfl
      · rfl

/-- Touching any single field leaves the whole error map unchanged. -/
theorem fieldFormTouch_evaluate_eq (fname : String) (s : FieldFormState) :
    fieldFormEvaluate (fieldFormTouch fname s) = fieldFormEvaluate s := by
  unfold fieldFormTouch
  split
  · rfl
  · split
    · rfl
    · split
      · rfl
      · rfl

/-- C8: touching any field or any sequence of fields never changes the
validity verdict, and the verdict depends only on the mode, values,
sibling fields, edited id and reserved list - never on the dirty flags. -/
theorem c8_touch_does_not_change_validity :
    (∀ (s : FieldFormState) (fs : List String),
        fieldFormIsValid (fs.foldl (fun t fname => fieldFormTouch fname t) s)
          = fieldFormIsValid s)
      ∧ (∀ (s : FieldFormState) (fname : String),
          fieldFormEvaluate (fieldFormTouch fname s) = fieldFormEvaluate s)
      ∧ (∀ s t : FieldFormState, s.creating = t.creating → s.values = t.values →
          s.fields = t.fields → s.existingFieldId = t.existingFieldId →
          s.reservedNames = t.reservedNames →
            fieldFormIsValid s = fieldFormIsValid t) := by
  refine ⟨?_, fun s fname => fieldFormTouch_evaluate_eq fname s, ?_⟩
  · intro s fs
    induction fs generalizing s with
    | nil => rfl
    | cons fname rest ih =>
      rw [List.foldl_cons, ih, fieldFormTouch_isValid_eq]
  · intro s t h1 h2 h3 h4 h5
    unfold fieldFormIsValid fieldFormEvaluate
    rw [h1, h2, h3, h4, h5]

/-- Witness for C8: two concrete states differing only in their dirty
flags have the same validity verdict. -/
theorem c8_touch_does_not_change_validity_witness :
    fieldFormIsValid ⟨false, ⟨"a", "text", some "a"⟩, [], none, [], false, false, false, false⟩
      = fieldFormIsValid ⟨false, ⟨"a", "text", some "a"⟩, [], none, [], true, true, true, true⟩ :=
  c8_touch_does_not_change_validity.2.2
    ⟨false, ⟨"a", "text", some "a"⟩, [], none, [], false, false, false, false⟩
    ⟨false, ⟨"a", "text", some "a"⟩, [], none, [], true, true, true, true⟩
    rfl rfl rfl rfl rfl

/-- C9: one validation pass is a pure function of the values, the sibling
fields, the edited id, the reserved list and the mode; two runs with those
inputs unchanged (dirty flags and hazard flag free to differ) produce
identical error maps. -/
theorem c9_evaluate_deterministic :
    ∀ s t : FieldFormState, s.creating = t.creating → s.values = t.values →
      s.fields = t.fields → s.existingFieldId = t.existingFieldId →
      s.reservedNames = t.reservedNames →
        fieldFormEvaluate s = fieldFormEvaluate t := by
  intro s t h1 h2 h3 h4 h5
  unfold fieldFormEvaluate
  rw [h1, h2, h3, h4, h5]

/-- Witness for C9: re-evaluating with unchanged inputs at a concrete
state (here with different dirty and hazard flags) gives the same error
map. -/
theorem c9_evaluate_deterministic_witness :
    fieldFormEvaluate ⟨false, ⟨"b", "text", some "b"⟩, [], none, [], false, false, false, false⟩
      = fieldFormEvaluate ⟨false, ⟨"b", "text", some "b"⟩, [], none, [], true, false, true, true⟩ :=
  c9_evaluate_deterministic
    ⟨false, ⟨"b", "text", some "b"⟩, [], none, [], false, false, false, false⟩
    ⟨false, ⟨"b", "text", some "b"⟩, [], none, [], true, false, true, true⟩
    rfl rfl rfl rfl rfl

/-- The api_name error display chain of `FieldForm.vue` (template lines
57-84) over the boolean results of the four validators: the first
v-if / v-else-if branch whose condition (dirty and the validator failing)
holds. Branch order in the template: required, unique, format, maxLength. -/
def apiNameErrorChain (dirty req uniq fmt maxl : Bool) : Option ErrorKind :=
  if dirty && !req then some ErrorKind.RequiredFieldMissing
  else if dirty && !uniq then some ErrorKind.DuplicateApiName
  else if dirty && !fmt then some ErrorKind.InvalidApiNameFormat
  else if dirty && !maxl then some ErrorKind.NameTooLong
  else none

/-- The hazard-warning branch of `FieldForm.vue` (template lines 85-92):
the final v-else-if of the same chain, with condition `api_name_focused`. -/
def apiNameWarningChain (dirty req uniq fmt maxl focused : Bool) : Bool :=
  if dirty && !req then false
  else if dirty && !uniq then false
  else if dirty && !fmt then false
  else if dirty && !maxl then false
  else focused

/-- The api_name display chain of the field form applied to the actual
validator results. -/
def fieldApiNameDisplayedError (dirty : Bool) (fields : List DbField)
    (i : Option Nat) (v : String) : Option ErrorKind :=
  apiNameErrorChain dirty (requiredValidator v) (mustHaveUniqueFieldAPIName fields i v)
    (mustUseValidAPINameCharacters v) (maxLengthValidator v)

/-- The hazard-warning visibility of the field form applied to the actual
validator results. -/
def fieldApiNameWarningShown (dirty focused : Bool) (fields : List DbField)
    (i : Option Nat) (v : String) : Bool :=
  apiNameWarningChain dirty (requiredValidator v) (mustHaveUniqueFieldAPIName fields i v)
    (mustUseValidAPINameCharacters v) (maxLengthValidator v) focused

/-- The api_name error display chain of `TableForm.vue` (template lines
40-59). Branch order in the template: required, format, maxLength. -/
def tableApiNameErrorChain (dirty req fmt maxl : Bool) : Option ErrorKind :=
  if dirty && !req then some ErrorKind.RequiredFieldMissing
  else if dirty && !fmt then some ErrorKind.InvalidApiNameFormat
  else if dirty && !maxl then some ErrorKind.NameTooLong
  else none

/-- The hazard-warning branch of `TableForm.vue` (template lines 60-66). -/
def tableApiNameWarningChain (dirty req fmt maxl focused : Bool) : Bool :=
  if dirty && !req then false
  else if dirty && !fmt then false
  else if dirty && !maxl then false
  else focused

/-- The api_name display chain of the table form applied to the actual
validator results. -/
def tableApiNameDisplayedError (dirty : Bool) (v : String) : Option ErrorKind :=
  tableApiNameErrorChain dirty (requiredValidator v)
    (mustUseValidAPINameCharacters v) (maxLengthValidator v)

/-- The hazard-warning visibility of the table form applied to the actual
validator results. -/
def tableApiNameWarningShown (dirty focused : Bool) (v : String) : Bool :=
  tableApiNameWarningChain dirty (requiredValidator v)
    (mustUseValidAPINameCharacters v) (maxLengthValidator v) focused

/-- Failing kinds of the field-form api_name validators listed in the
TEMPLATE branch order (required, unique, format, maxLength), over the
boolean validator results. -/
def apiNameTemplateFailList (req uniq fmt maxl : Bool) : List ErrorKind :=
  (if req then [] else [ErrorKind.RequiredFieldMissing])
    ++ (if uniq then [] else [ErrorKind.DuplicateApiName])
    ++ (if fmt then [] else [ErrorKind.InvalidApiNameFormat])
    ++ (if maxl then [] else [ErrorKind.NameTooLong])

/-- `apiNameTemplateFailList` applied to the actual validator results. -/
def fieldApiNameTemplateFailing (fields : List DbField) (i : Option Nat)
    (v : String) : List ErrorKind :=
  apiNameTemplateFailList (requiredValidator v) (mustHaveUniqueFieldAPIName fields i v)
    (mustUseValidAPINameCharacters v) (maxLengthValidator v)

/-- Failing kinds of the table-form api_name validators listed in the
TEMPLATE branch order (required, format, maxLength). -/
def tableApiNameTemplateFailList (req fmt maxl : Bool) : List ErrorKind :=
  (if req then [] else [ErrorKind.RequiredFieldMissing])
    ++ (if fmt then [] else [ErrorKind.InvalidApiNameFormat])
    ++ (if maxl then [] else [ErrorKind.NameTooLong])

/-- `tableApiNameTemplateFailList` applied to the actual validator
results. -/
def tableApiNameTemplateFailing (v : String) : List ErrorKind :=
  tableApiNameTemplateFailList (requiredValidator v)
    (mustUseValidAPINameCharacters v) (maxLengthValidator v)

/-- The candidate values of the table form (`data()` of `TableForm.vue`,
lines 91-100). -/
structure TableValues where
  name : String
  api_name : String
deriving DecidableEq, Repr

/-- Failing kinds for the name field of `TableForm.vue` in the declaration
order of `validations()` (lines 106-120): required, maxLength, and nothing
else. -/
def tableNameFailing (v : String) : List ErrorKind :=
  (if requiredValidator v then [] else [ErrorKind.RequiredFieldMissing])
    ++ (if maxLengthValidator v then [] else [ErrorKind.NameTooLong])

/-- Failing kinds for the api_name field of `TableForm.vue` in the
declaration order of `validations()`: required, maxLength,
mustUseValidAPINameCharacters. No uniqueness rule is declared, and the
computed `existingTableId` is read by no validator. -/
def tableApiNameFailingDecl (v : String) : List ErrorKind :=
  (if requiredValidator v then [] else [ErrorKind.RequiredFieldMissing])
    ++ (if maxLengthValidator v then [] else [ErrorKind.NameTooLong])
    ++ (if mustUseValidAPINameCharacters v then [] else [ErrorKind.InvalidApiNameFormat])

/-- A sibling table entity. The table form is mounted with the table
collection available in the surrounding store, but its `validations()`
never consults it. -/
structure DbTable where
  id : Nat
  name : String
  api_name : String
deriving DecidableEq, Repr

/-- Overall validity of the table form: the conjunction of all declared
validators. Note the absence of any sibling-table input. -/
def tableFormIsValid (v : TableValues) : Bool :=
  (tableNameFailing v.name).isEmpty && (tableApiNameFailingDecl v.api_name).isEmpty

/-- Counterexample to C2: editing table 2 while a different table (id 1)
is named foo with api_name foo; the candidate name and api_name equal the
sibling values after trimming, yet table-form validation passes, because
`validations()` of `TableForm.vue` declares no uniqueness rule for either
field. -/
theorem c2_table_uniqueness_counterexample :
    (DbTable.mk 1 "foo" "foo").name = jsTrim "foo"
      ∧ (DbTable.mk 1 "foo" "foo").api_name = jsTrim "foo"
      ∧ (1 : Nat) ≠ 2
      ∧ tableFormIsValid ⟨"foo", "foo"⟩ = true := by
  decide

/-- C2 (amended): the table form validates name only for required and
maxLength, and api_name only for required, maxLength and the API-name
format; validity is a function of the candidate values alone, with no
uniqueness comparison against other tables. -/
theorem c2_table_form_rules_amended :
    ∀ v : TableValues,
      tableFormIsValid v = true ↔
        (requiredValidator v.name = true ∧ maxLengthValidator v.name = true
          ∧ requiredValidator v.api_name = true ∧ maxLengthValidator v.api_name = true
          ∧ mustUseValidAPINameCharacters v.api_name = true) := by
  intro v
  unfold tableFormIsValid tableNameFailing tableApiNameFailingDecl
  generalize requiredValidator v.name = b1
  generalize maxLengthValidator v.name = b2
  generalize requiredValidator v.api_name = b3
  generalize maxLengthValidator v.api_name = b4
  generalize mustUseValidAPINameCharacters v.api_name = b5
  revert b1 b2 b3 b4 b5
  decide

/-- When dirty, the field-form api_name chain displays exactly the head of
the template-order failing list; when untouched it displays nothing. -/
theorem apiNameChain_head (r u f m : Bool) :
    apiNameErrorChain true r u f m = (apiNameTemplateFailList r u f m).head?
      ∧ apiNameErrorChain false r u f m = none := by
  revert r u f m
  decide

/-- Table-form counterpart of `apiNameChain_head`. -/
theorem tableApiNameChain_head (r f m : Bool) :
    tableApiNameErrorChain true r f m = (tableApiNameTemplateFailList r f m).head?
      ∧ tableApiNameErrorChain false r f m = none := by
  revert r f m
  decide

/-- Counterexample to C7: the value made of 256 capital A characters fails
both maxLength (length 256 over the bound) and the format rule (uppercase).
In the declaration order of `validations()` (required, maxLength, format)
the first failing kind is NameTooLong, but the template branch order tests
the format rule first, so the UI surfaces InvalidApiNameFormat instead. -/
theorem c7_display_order_counterexample :
    tableApiNameDisplayedError true (String.mk (List.replicate 256 'A'))
        = some ErrorKind.InvalidApiNameFormat
      ∧ (tableApiNameFailingDecl (String.mk (List.replicate 256 'A'))).head?
          = some ErrorKind.NameTooLong
      ∧ ErrorKind.InvalidApiNameFormat ≠ ErrorKind.NameTooLong := by
  decide

/-- C7 (amended): for a dirty field the UI surfaces exactly one error, the
first failing kind in the TEMPLATE branch order of the v-if / v-else-if
chain (which differs from the rule-map declaration order); untouched
fields never display an error. -/
theorem c7_display_order_amended :
    (∀ (fields : List DbField) (i : Option Nat) (v : String),
        fieldApiNameDisplayedError true fields i v
            = (fieldApiNameTemplateFailing fields i v).head?
          ∧ fieldApiNameDisplayedError false fields i v = none)
      ∧ (∀ v : String,
          tableApiNameDisplayedError true v = (tableApiNameTemplateFailing v).head?
            ∧ tableApiNameDisplayedError false v = none) :=
  ⟨fun fields i v =>
      apiNameChain_head (requiredValidator v) (mustHaveUniqueFieldAPIName fields i v)
        (mustUseValidAPINameCharacters v) (maxLengthValidator v),
    fun v =>
      tableApiNameChain_head (requiredValidator v) (mustUseValidAPINameCharacters v)
        (maxLengthValidator v)⟩

/-- The warning branch of the field-form chain is reached exactly when the
input is focused and no error branch fired. -/
theorem apiNameChain_warning_iff (d r u f m fo : Bool) :
    apiNameWarningChain d r u f m fo = true ↔
      (fo = true ∧ apiNameErrorChain d r u f m = none) := by
  revert d r u f m fo
  decide

/-- Table-form counterpart of `apiNameChain_warning_iff`. -/
theorem tableApiNameChain_warning_iff (d r f m fo : Bool) :
    tableApiNameWarningChain d r f m fo = true ↔
      (fo = true ∧ tableApiNameErrorChain d r f m = none) := by
  revert d r f m fo
  decide

/-- C10: in both forms the hazard warning is rendered iff the api_name
input is in the focused state and no api_name validation error is
displayed; any displayed error suppresses the warning even while
focused. -/
theorem c10_warning_suppressed_by_errors :
    (∀ (dirty focused : Bool) (fields : List DbField) (i : Option Nat) (v : String),
        fieldApiNameWarningShown dirty focused fields i v = true ↔
          (focused = true ∧ fieldApiNameDisplayedError dirty fields i v = none))
      ∧ (∀ (dirty focused : Bool) (v : String),
          tableApiNameWarningShown dirty focused v = true ↔
            (focused = true ∧ tableApiNameDisplayedError dirty v = none)) :=
  ⟨fun dirty focused fields i v =>
      apiNameChain_warning_iff dirty (requiredValidator v)
        (mustHaveUniqueFieldAPIName fields i v) (mustUseValidAPINameCharacters v)
        (maxLengthValidator v) focused,
    fun dirty focused v =>
      tableApiNameChain_warning_iff dirty (requiredValidator v)
        (mustUseValidAPINameCharacters v) (maxLengthValidator v) focused⟩

/-- The timer-relevant state of one form instance. `api_name_focused` is
the reactive flag driving the warning, `handleField` is the ad-hoc
instance property `apiNameWarningInterval` (holding the id of the last
interval scheduled, possibly already cleared), `active` is the set of live
intervals of the JavaScript host, as pairs of an id and the milliseconds
remaining until the next fire (the period is 500), `nextHandle` is the
next id `setInterval` will hand out (ids start at 1, matching the
truthiness test in `apiNameFocus`), and `destroyed` records that the form
component has been torn down. -/
structure HazardTimerState where
  api_name_focused : Bool
  handleField : Option Nat
  active : List (Nat × Nat)
  nextHandle : Nat
  destroyed : Bool
deriving DecidableEq, Repr

/-- Freshly mounted form: warning hidden, no interval ever scheduled. -/
def hazardInit : HazardTimerState :=
  { api_name_focused := false
  , handleField := none
  , active := []
  , nextHandle := 1
  , destroyed := false }

/-- `apiNameFocus()` (identical in both forms): if `apiNameWarningInterval`
is set, clear that interval (a no-op when it already fired its clear), then
show the warning. -/
def apiNameFocus (s : HazardTimerState) : HazardTimerState :=
  let active := match s.handleField with
    | some h => s.active.filter (fun p => p.1 != h)
    | none => s.active
  { s with active := active, api_name_focused := true }

/-- `apiNameUnfocus()` (identical in both forms): schedule a new interval
with period 500 whose callback hides the warning, and overwrite
`apiNameWarningInterval` with its handle. The source calls `setInterval`,
not `setTimeout`, and clears nothing here. -/
def apiNameUnfocus (s : HazardTimerState) : HazardTimerState :=
  { s with
    active := s.active ++ [(s.nextHandle, 500)],
    handleField := some s.nextHandle,
    nextHandle := s.nextHandle + 1 }

/-- One live interval after `t` milliseconds of host time: if its deadline
lies within the wait (`remaining ≤ t`) it fires, and because `setInterval`
repeats it is re-armed on its 500 ms period (so it is never removed by the
passage of time); otherwise its remaining time just shrinks by `t`. -/
def intervalAfter (t : Nat) (p : Nat × Nat) : Nat × Nat :=
  if p.2 ≤ t then (p.1, 500 - ((t - p.2) % 500)) else (p.1, p.2 - t)

/-- `t` milliseconds of host time. The only scheduled callback is the one
from `apiNameUnfocus`, whose body sets `api_name_focused := false`; firing
it any positive number of times therefore just sets the flag to false, and
the flag is untouched when no interval fired within the wait. The callback
runs regardless of `destroyed`: neither form declares any teardown hook,
so destruction cancels nothing. -/
def hazardElapse (t : Nat) (s : HazardTimerState) : HazardTimerState :=
  let fired := s.active.any (fun p => p.2 ≤ t)
  { s with
    api_name_focused := if fired then false else s.api_name_focused,
    active := s.active.map (intervalAfter t) }

/-- Teardown of the form component. `FieldForm.vue` and `TableForm.vue`
declare no beforeDestroy or destroyed hook and no submit, cancel or reset
path that touches `apiNameWarningInterval` (the only `clearInterval` call
in either file is inside `apiNameFocus`), so destruction changes nothing
except the destroyed marker: live intervals stay live. -/
def hazardDestroy (s : HazardTimerState) : HazardTimerState :=
  { s with destroyed := true }

/-- C3: evaluation at the failing input focus, blur, wait 500 ms. The
warning is hidden as claimed, but a pending timer remains: the source
schedules the hide with `setInterval`, so after firing the interval is
re-armed and is still live 500 ms (and 1000 ms) later. The refocus part of
the claim does hold: blurring then refocusing 300 ms later keeps the
warning continuously visible and clears the pending interval. -/
theorem c3_hazard_interval_persists :
    ((hazardElapse 500 (apiNameUnfocus (apiNameFocus hazardInit))).api_name_focused = false)
      ∧ ((hazardElapse 500 (apiNameUnfocus (apiNameFocus hazardInit))).active ≠ [])
      ∧ ((hazardElapse 1000 (apiNameUnfocus (apiNameFocus hazardInit))).active ≠ [])
      ∧ (∀ k < 500, (hazardElapse k (apiNameUnfocus (apiNameFocus hazardInit))).api_name_focused = true)
      ∧ ((apiNameFocus (hazardElapse 300 (apiNameUnfocus (apiNameFocus hazardInit)))).api_name_focused = true)
      ∧ ((apiNameFocus (hazardElapse 300 (apiNameUnfocus (apiNameFocus hazardInit)))).active = []) := by
  decide

/-- C4: evaluation at the failing input focus, blur, destroy the form
within the cooldown. At destruction a timer is still pending, and 500 ms
after destruction its callback has run (the warning flag flips from true
to false) and the interval is still live: no exit path of either form
cancels `apiNameWarningInterval`. -/
theorem c4_hazard_timer_after_destroy :
    ((hazardDestroy (apiNameUnfocus (apiNameFocus hazardInit))).destroyed = true)
      ∧ ((hazardDestroy (apiNameUnfocus (apiNameFocus hazardInit))).active ≠ [])
      ∧ ((hazardDestroy (apiNameUnfocus (apiNameFocus hazardInit))).api_name_focused = true)
      ∧ ((hazardElapse 500 (hazardDestroy (apiNameUnfocus (apiNameFocus hazardInit)))).destroyed = true)
      ∧ ((hazardElapse 500 (hazardDestroy (apiNameUnfocus (apiNameFocus hazardInit)))).api_name_focused = false)
      ∧ ((hazardElapse 500 (hazardDestroy (apiNameUnfocus (apiNameFocus hazardInit)))).active ≠ []) := by
  decide
